import Mathlib

/-!
Verification development for the job-application tracking tool
(`pages/nav/controle_vagas.py`).

The Python source is shallowly embedded below.  Numeric cell values are
modelled as exact rationals (`ℚ`); a standardized value `(x - mean) / sqrt(var)`
is represented exactly by the pair `⟨x - mean, var'⟩` (see `ScaledVal`) since
square roots are irrational in general.  The behaviour of the pandas / sklearn
library calls that the source delegates to (`pd.to_datetime`, `pd.get_dummies`,
`LabelEncoder`, `StandardScaler`, `cross_val_score` with a stratified 5-fold
splitter, `reindex`) is embedded from the library's documented semantics, at
the level of detail the source relies on.  The random-forest classifier itself
is external to the repository and is abstracted as a parameter `Clf`
(a training-set-to-predictor function); every property proved below holds for
an arbitrary classifier.
-/

namespace ControleVagas

/-! ### Proleptic Gregorian calendar, as used by `datetime.toordinal` -/

def isLeapYear (y : Nat) : Bool :=
  (y % 4 == 0 && y % 100 != 0) || y % 400 == 0

def daysInMonth (y m : Nat) : Nat :=
  if m = 2 then (if isLeapYear y then 29 else 28)
  else if m = 4 ∨ m = 6 ∨ m = 9 ∨ m = 11 then 30
  else 31

def daysBeforeYear (y : Nat) : Nat :=
  (y - 1) * 365 + (y - 1) / 4 - (y - 1) / 100 + (y - 1) / 400

def daysBeforeMonth (y m : Nat) : Nat :=
  ((List.range (m - 1)).map (fun i => daysInMonth y (i + 1))).sum

/-- `datetime.toordinal`: day count with 0001-01-01 ↦ 1. -/
def toOrdinal (y m d : Nat) : Nat :=
  daysBeforeYear y + daysBeforeMonth y m + d

/-- Earliest midnight date representable as a pandas nanosecond `Timestamp`
(`Timestamp.min` is 1677-09-21 00:12, so the first whole day is 1677-09-22). -/
def pandasMinOrdinal : Nat := toOrdinal 1677 9 22

/-- Latest midnight date representable as a pandas nanosecond `Timestamp`
(`Timestamp.max` is 2262-04-11 23:47). -/
def pandasMaxOrdinal : Nat := toOrdinal 2262 4 11

/-! ### Parsing `Data da Candidatura` with `pd.to_datetime(format=%Y-%m-%d, errors=coerce)` -/

def splitDash : List Char → List (List Char)
  | [] => [[]]
  | c :: rest =>
    match splitDash rest, decide (c = '-') with
    | r, true => [] :: r
    | [], false => [[c]]
    | h :: t, false => (c :: h) :: t

def digitsValue (l : List Char) : Nat :=
  l.foldl (fun n c => n * 10 + (c.toNat - 48)) 0

/-- The `%Y` directive: exactly four digits. -/
def parseYearField (l : List Char) : Option Nat :=
  if l.length = 4 ∧ l.all Char.isDigit then some (digitsValue l) else none

/-- The `%m` / `%d` directives: one or two digits. -/
def parseTwoField (l : List Char) : Option Nat :=
  if (l.length = 1 ∨ l.length = 2) ∧ l.all Char.isDigit then some (digitsValue l) else none

/-- `pd.to_datetime(s, format=%Y-%m-%d, errors=coerce)` followed by
`datetime.toordinal`: `some` ordinal on success, `none` (NaT) when the string
does not match the format, is not a real calendar date, or falls outside the
pandas `Timestamp` range. -/
def parseDate (s : String) : Option Nat :=
  match splitDash s.data with
  | [ys, ms, ds] =>
    match parseYearField ys, parseTwoField ms, parseTwoField ds with
    | some y, some m, some d =>
      if 1 ≤ y ∧ 1 ≤ m ∧ m ≤ 12 ∧ 1 ≤ d ∧ d ≤ daysInMonth y m then
        let o := toOrdinal y m d
        if pandasMinOrdinal ≤ o ∧ o ≤ pandasMaxOrdinal then some o else none
      else none
    | _, _, _ => none
  | _ => none

/-! ### The in-memory dataframe -/

/-- One cell of the `Data da Candidatura` column: either the raw string loaded
from the CSV, or (after `prepare_features` has mutated the frame in place) a
parsed datetime value, with `none` playing the role of `NaT`.  A parsed value
is identified by its day ordinal. -/
inductive DateCell where
  | raw (s : String)
  | parsed (o : Option Nat)
deriving DecidableEq

/-- `pd.to_datetime(column, format=%Y-%m-%d, errors=coerce)` on one cell:
raw strings are parsed, already-parsed datetimes pass through unchanged
(`NaT` stays `NaT`). -/
def to_datetime_cell : DateCell → Option Nat
  | .raw s => parseDate s
  | .parsed o => o

/-- One row of the per-user dataframe (the ten CSV columns), plus the
`Status_encoded` column which `prepare_features` adds in place
(`none` = column absent for this row, as in a freshly loaded frame). -/
structure Row where
  id : String
  dataCandidatura : DateCell
  vaga : String
  nomeEmpresa : String
  linkVaga : String
  origemCandidatura : String
  pessoasAdicionadas : String
  linkedinMensagem : String
  ultimoContato : String
  status : String
  status_encoded : Option Nat := none
deriving DecidableEq

/-! ### `LabelEncoder` -/

/-- Lexicographic comparison by Unicode code point, as Python and numpy
compare strings. -/
def charListLt : List Char → List Char → Bool
  | [], [] => false
  | [], _ :: _ => true
  | _ :: _, [] => false
  | c :: cs, d :: ds =>
    if c.toNat < d.toNat then true
    else if d.toNat < c.toNat then false
    else charListLt cs ds

def strLt (a b : String) : Bool := charListLt a.data b.data

def insertSorted (x : String) : List String → List String
  | [] => [x]
  | y :: l => if strLt y x then y :: insertSorted x l else x :: y :: l

def sortStrings : List String → List String
  | [] => []
  | x :: l => insertSorted x (sortStrings l)

/-- `np.unique`: the distinct values, in sorted order. -/
def uniqueSorted (l : List String) : List String := sortStrings l.dedup

def indexInList (s : String) : List String → Nat
  | [] => 0
  | x :: l => if x = s then 0 else indexInList s l + 1

/-- `LabelEncoder().fit_transform` on the `Status` column: each status maps to
its index in the sorted list of distinct statuses observed in this call. -/
def label_encode (statuses : List String) (s : String) : Nat :=
  indexInList s (uniqueSorted statuses)

/-! ### `pd.get_dummies(•, drop_first=True)` on the six feature columns -/

/-- The six logical feature columns selected at line 78 of the source
(`Data da Candidatura` already converted to its day ordinal). -/
structure FeatureTuple where
  dateOrd : Nat
  vaga : String
  origemCandidatura : String
  pessoasAdicionadas : String
  linkedinMensagem : String
  ultimoContato : String
deriving DecidableEq

/-- Names of the dummy columns generated for one categorical column: one
column per distinct value in sorted order, the first (reference) level
dropped, named `col_value`. -/
def dummyColumnNames (col : String) (vals : List String) : List String :=
  ((uniqueSorted vals).drop 1).map (fun c => col ++ "_" ++ c)

/-- Indicator values of one row for the dummy columns of one categorical
column (`True`/`False` dummies, read as 1/0 by the scaler). -/
def dummyIndicators (vals : List String) (v : String) : List ℚ :=
  ((uniqueSorted vals).drop 1).map (fun c => if v = c then 1 else 0)

/-- Column order of `pd.get_dummies`: the numeric column first, then the dummy
groups of the categorical columns in their original order. -/
def featureColumns (rows : List FeatureTuple) : List String :=
  "Data da Candidatura" ::
    (dummyColumnNames "Vaga" (rows.map (fun t => t.vaga)) ++
     dummyColumnNames "Origem da Candidatura" (rows.map (fun t => t.origemCandidatura)) ++
     dummyColumnNames "Pessoas da empresa adicionadas" (rows.map (fun t => t.pessoasAdicionadas)) ++
     dummyColumnNames "Linkedin da pessoa que mandei a mensagem" (rows.map (fun t => t.linkedinMensagem)) ++
     dummyColumnNames "Ultimo contato pelo linkedin" (rows.map (fun t => t.ultimoContato)))

def featureRow (rows : List FeatureTuple) (t : FeatureTuple) : List ℚ :=
  (t.dateOrd : ℚ) ::
    (dummyIndicators (rows.map (fun u => u.vaga)) t.vaga ++
     dummyIndicators (rows.map (fun u => u.origemCandidatura)) t.origemCandidatura ++
     dummyIndicators (rows.map (fun u => u.pessoasAdicionadas)) t.pessoasAdicionadas ++
     dummyIndicators (rows.map (fun u => u.linkedinMensagem)) t.linkedinMensagem ++
     dummyIndicators (rows.map (fun u => u.ultimoContato)) t.ultimoContato)

/-- `pd.get_dummies(X, drop_first=True)`: the numeric matrix, one row per
input row. -/
def get_dummies (rows : List FeatureTuple) : List (List ℚ) :=
  rows.map (featureRow rows)

/-! ### `StandardScaler` -/

def listMean (l : List ℚ) : ℚ := l.sum / (l.length : ℚ)

def listVar (l : List ℚ) : ℚ :=
  ((l.map (fun x => (x - listMean l) ^ 2)).sum) / (l.length : ℚ)

def matrixColumn (m : List (List ℚ)) (j : Nat) : List ℚ :=
  m.map (fun r => r.getD j 0)

/-- The fitted scaler: per-column mean and (population) variance.  sklearn
stores `scale_ = sqrt(var_)`; we keep the variance, which determines it. -/
structure StandardScaler where
  means : List ℚ
  vars : List ℚ
deriving DecidableEq

def fitScaler (m : List (List ℚ)) (width : Nat) : StandardScaler :=
  { means := (List.range width).map (fun j => listMean (matrixColumn m j)),
    vars := (List.range width).map (fun j => listVar (matrixColumn m j)) }

/-- Exact representation of one standardized value: `⟨n, v⟩` denotes the real
number `n / sqrt v`.  Equal representations denote equal reals. -/
structure ScaledVal where
  num : ℚ
  den : ℚ
deriving DecidableEq

/-- sklearn replaces a zero scale (constant column) by 1 before dividing. -/
def scaleDenominator (v : ℚ) : ℚ := if v = 0 then 1 else v

/-- `scaler.transform` on one row. -/
def transformRow (sc : StandardScaler) (row : List ℚ) : List ScaledVal :=
  (List.range row.length).map
    (fun j => ⟨row.getD j 0 - sc.means.getD j 0, scaleDenominator (sc.vars.getD j 0)⟩)

/-! ### `prepare_features` (source lines 55-89) -/

structure PrepOut where
  X : List (List ScaledVal)
  y : List Nat
  scaler : StandardScaler
  X_columns : List String
deriving DecidableEq

/-- The rows surviving `dropna(subset=[Data da Candidatura])`. -/
def validRows (d : List Row) : List Row :=
  d.filter (fun r => (to_datetime_cell r.dataCandidatura).isSome)

/-- The six feature columns of the surviving rows, with the date as its
ordinal. -/
def featureTuples (d : List Row) : List FeatureTuple :=
  d.filterMap (fun r =>
    (to_datetime_cell r.dataCandidatura).map
      (fun o => ⟨o, r.vaga, r.origemCandidatura, r.pessoasAdicionadas,
                 r.linkedinMensagem, r.ultimoContato⟩))

/-- The in-place mutation `prepare_features` performs on the caller's frame:
lines 72 and 74 add `Status_encoded` and overwrite `Data da Candidatura` with
its parsed (possibly NaT) value.  The later `dropna` and ordinal conversion
act on a local copy and do not reach the caller. -/
def mutateRow (statuses : List String) (r : Row) : Row :=
  { r with
    status_encoded := some (label_encode statuses r.status),
    dataCandidatura := .parsed (to_datetime_cell r.dataCandidatura) }

/-- The `(X, y, scaler, X_columns)` quadruple computed on the successful path
of `prepare_features` (lines 71-86). -/
def prepare_features_outputs (data : List Row) : PrepOut :=
  let sts := data.map (fun r => r.status)
  let tuples := featureTuples data
  let Xraw := get_dummies tuples
  let cols := featureColumns tuples
  let sc := fitScaler Xraw cols.length
  { X := Xraw.map (transformRow sc),
    y := (validRows data).map (fun r => label_encode sts r.status),
    scaler := sc,
    X_columns := cols }

/-- `prepare_features(data)`: `some` quadruple on success, `none` for the
`except` branch at lines 87-89, which a schema-conformant frame reaches
exactly when no row survives date parsing — `scaler.fit_transform` at line 84
raises on an empty matrix (`StandardScaler` requires at least one sample),
e.g. on the freshly created header-only CSV.  The caller's frame is returned
as mutated by lines 72 and 74, which run before that raise point, so the
mutation happens on the error path too. -/
def prepare_features (data : List Row) : Option PrepOut × List Row :=
  ((if featureTuples data = [] then none else some (prepare_features_outputs data)),
   data.map (mutateRow (data.map (fun r => r.status))))

/-! ### `train_model` (source lines 91-126) -/

/-- Abstraction of the external `RandomForestClassifier`: a function taking
the (features, label) training pairs and returning a fitted predictor.  Every
theorem below holds for an arbitrary classifier. -/
def Clf : Type :=
  List (List ScaledVal × Nat) → List ScaledVal → Nat

/-- Number of members of each distinct class of `y`. -/
def classCounts (y : List Nat) : List Nat :=
  y.dedup.map (fun c => y.count c)

/-- sklearn fold sizes for `n` samples in `cv` folds: the first `n % cv` folds
have one extra element. -/
def foldLen (n cv i : Nat) : Nat :=
  n / cv + if i < n % cv then 1 else 0

def foldStart (n cv i : Nat) : Nat :=
  i * (n / cv) + min i (n % cv)

def foldTest (pairs : List (List ScaledVal × Nat)) (cv i : Nat) :
    List (List ScaledVal × Nat) :=
  (pairs.drop (foldStart pairs.length cv i)).take (foldLen pairs.length cv i)

def foldTrain (pairs : List (List ScaledVal × Nat)) (cv i : Nat) :
    List (List ScaledVal × Nat) :=
  pairs.take (foldStart pairs.length cv i) ++
    pairs.drop (foldStart pairs.length cv i + foldLen pairs.length cv i)

/-- Accuracy of the predictor fitted on `train` over the `test` fold. -/
def foldScore (clf : Clf) (train test : List (List ScaledVal × Nat)) : ℚ :=
  ((test.countP (fun p => clf train p.1 == p.2) : ℚ)) / ((test.length : ℚ))

/-- `cross_val_score(model, X, y, cv=cv)` for a classifier: sklearn's
`StratifiedKFold` raises `ValueError` when `cv` exceeds the number of samples,
or when `cv` is greater than the number of members of every class; otherwise
it returns one accuracy per fold.  Which index lands in which fold is
irrelevant to the claims below, so the fold partition is embedded with
sklearn's fold sizes over consecutive index blocks. -/
def cross_val_score (clf : Clf) (pairs : List (List ScaledVal × Nat)) (cv : Nat) :
    Except String (List ℚ) :=
  if pairs.length < cv then
    .error "Cannot have number of splits greater than the number of samples"
  else if (classCounts (pairs.map (fun p => p.2))).all (fun c => decide (c < cv)) then
    .error "n_splits cannot be greater than the number of members in each class"
  else
    .ok ((List.range cv).map
      (fun i => foldScore clf (foldTrain pairs cv i) (foldTest pairs cv i)))

/-- Source line 119: `cv_dobras = min(5, len(y))`. -/
def cv_dobras (n : Nat) : Nat := min 5 n

/-- `train_test_split(test_size=0.2)`: the test set has `ceil(0.2 * n)`
elements.  The seed-42 shuffle permutation is irrelevant to the claims below,
so the training slice is embedded as the leading block. -/
def test_size_count (n : Nat) : Nat := (n + 4) / 5

/-- The observable outcome of `train_model`: the returned triple, whether the
data-preparation error (line 88, surfaced through the `X is None` branch at
line 107), the insufficient-data warning (line 111) or the training-error
message (line 125) was emitted, and the reported mean cross-validation
accuracy (line 121). -/
structure TrainOut where
  model : Option (List ScaledVal → Nat)
  scaler : Option StandardScaler
  x_columns : Option (List String)
  prepare_error : Bool
  insufficient_warning : Bool
  train_error : Bool
  accuracy : Option ℚ

def nullTrainOut (prep warn err : Bool) : TrainOut :=
  { model := none, scaler := none, x_columns := none, prepare_error := prep,
    insufficient_warning := warn, train_error := err, accuracy := none }

/-- `train_model(data)` (lines 105-126), for an arbitrary classifier `clf`.
Also returns the caller's frame as mutated by the `prepare_features` call.
Every branch of the source returns a value to the caller (a failed
preparation is caught at line 87 and exits through the `X is None` branch at
lines 107-108 without the insufficient-data warning; the `except` at line 124
converts any training exception into the null triple), so the embedding is a
total function. -/
def train_model (clf : Clf) (data : List Row) : TrainOut × List Row :=
  let pr := prepare_features data
  match pr.1 with
  | none => (nullTrainOut true false false, pr.2)
  | some p =>
    if p.y.length < 5 then
      (nullTrainOut false true false, pr.2)
    else
      let pairs := p.X.zip p.y
      match cross_val_score clf pairs (cv_dobras p.y.length) with
      | .error _ => (nullTrainOut false false true, pr.2)
      | .ok scores =>
        ({ model := some (clf (pairs.take (pairs.length - test_size_count pairs.length))),
           scaler := some p.scaler,
           x_columns := some p.X_columns,
           prepare_error := false,
           insufficient_warning := false,
           train_error := false,
           accuracy := some (listMean scores) }, pr.2)

/-! ### `predict` (source lines 128-169) -/

/-- Lines 150-153: the single prediction row, one-hot expanded with
`pd.get_dummies(•, drop_first=True)`, as an association of column names to
values.  Re-uses the general dummy machinery on the one-row frame. -/
def predict_input_dummies (t : FeatureTuple) : List (String × ℚ) :=
  (featureColumns [t]).zip (featureRow [t] t)

def lookupColumn (c : String) : List (String × ℚ) → Option ℚ
  | [] => none
  | (k, v) :: rest => if k = c then some v else lookupColumn c rest

/-- Line 154: `reindex(columns=X_columns, fill_value=0)`: one value per
requested column, in the requested order, the row's own value where the
column exists and the fill value 0 where it does not. -/
def reindex (cols : List String) (row : List (String × ℚ)) : List ℚ :=
  cols.map (fun c => (lookupColumn c row).getD 0)

/-- Lines 159-162: pick the displayed probability from the first row of
`predict_proba`: the second class column when there is more than one class
column, the sole column otherwise. -/
def select_probability (probs : List ℚ) : ℚ :=
  if 1 < probs.length then probs.getD 1 0 else probs.getD 0 0

/-- What lines 164-167 display: the verdict and the percentage figure shown
in the message of either branch. -/
structure PredictionMessage where
  success : Bool
  percent : ℚ
deriving DecidableEq

/-- Lines 164-167: success iff the probability exceeds 0.50; both branches
interpolate `probabilidade * 100` into the message. -/
def classify_probability (p : ℚ) : PredictionMessage :=
  if 1 / 2 < p then { success := true, percent := p * 100 }
  else { success := false, percent := p * 100 }

/-! ### The add-record form (source lines 179-215) -/

/-- The form fields at submission time.  `data_candidatura` comes from
`st.date_input`, which always yields a genuine date (never falsy, and
`str()` of it always re-parses under `%Y-%m-%d`, so the `ValueError` branch
at line 214 is unreachable); it is identified by its day ordinal. -/
structure FormInput where
  id_vaga : String
  data_candidatura : Nat
  vaga : String
  nome_empresa : String
  link_vaga : String
  origem_candidatura : String
  pessoas_adicionadas : String
  linkedin_mensagem : String
  ultimo_contato : String
  status : String
deriving DecidableEq

/-- Outcome of one form submission: the resulting in-memory frame, whether
`save_data` was invoked, and whether the fill-all-fields warning was shown. -/
structure AddVagaOut where
  df : List Row
  saved : Bool
  fill_warning : Bool
deriving DecidableEq

def newRowOfForm (inp : FormInput) : Row :=
  { id := inp.id_vaga,
    dataCandidatura := .parsed (some inp.data_candidatura),
    vaga := inp.vaga,
    nomeEmpresa := inp.nome_empresa,
    linkVaga := inp.link_vaga,
    origemCandidatura := inp.origem_candidatura,
    pessoasAdicionadas := inp.pessoas_adicionadas,
    linkedinMensagem := inp.linkedin_mensagem,
    ultimoContato := inp.ultimo_contato,
    status := inp.status }

/-- Lines 192-213: the submit handler.  The truthiness test at line 193
rejects the entry when any of the nine checked fields is empty (the date is
always truthy, and `status` comes from a selectbox and is not checked);
otherwise the row is appended and `save_data` is called. -/
def add_vaga_submit (inp : FormInput) (df : List Row) : AddVagaOut :=
  if inp.id_vaga = "" ∨ inp.vaga = "" ∨ inp.nome_empresa = "" ∨
     inp.link_vaga = "" ∨ inp.origem_candidatura = "" ∨
     inp.pessoas_adicionadas = "" ∨ inp.linkedin_mensagem = "" ∨
     inp.ultimo_contato = "" then
    { df := df, saved := false, fill_warning := true }
  else
    { df := df ++ [newRowOfForm inp], saved := true, fill_warning := false }

/-! ### Concrete datasets used as witnesses and counterexamples -/

/-- A fully populated record with the given application date and status. -/
def mkRow (date status : String) : Row :=
  { id := "1", dataCandidatura := .raw date, vaga := "Dev", nomeEmpresa := "Emp",
    linkVaga := "L", origemCandidatura := "Linkedin", pessoasAdicionadas := "Sim",
    linkedinMensagem := "Sim", ultimoContato := "Ontem", status := status }

/-- A trivial concrete instance of the classifier abstraction. -/
def clf0 : Clf := fun _ _ => 0

/-- Five valid rows, two distinct statuses, but every class smaller than the
five folds: the stratified splitter rejects it. -/
def tC1 : List Row :=
  [mkRow "2024-01-01" "Rejeitado", mkRow "2024-01-02" "Rejeitado",
   mkRow "2024-01-03" "Rejeitado", mkRow "2024-01-04" "Rejeitado",
   mkRow "2024-01-05" "Contratado"]

/-- Six valid rows: five of one status, one of another. -/
def tC1w : List Row := tC1 ++ [mkRow "2024-01-06" "Rejeitado"]

/-- Four valid rows: below the minimum-5 gate. -/
def t4 : List Row :=
  [mkRow "2024-01-01" "Rejeitado", mkRow "2024-01-02" "Rejeitado",
   mkRow "2024-01-03" "Rejeitado", mkRow "2024-01-04" "Contratado"]

/-- A one-row freshly loaded frame. -/
def tMut : List Row := [mkRow "2024-01-01" "Aguardando"]

/-- The empty dataset: what load_data yields right after creating the
header-only CSV.  It has 0 valid rows, so preparation fails at the scaler. -/
def tEmpty : List Row := []

/-- A form submission whose company-name field is empty. -/
def formMissingEmpresa : FormInput :=
  { id_vaga := "7", data_candidatura := 738886, vaga := "Dev", nome_empresa := "",
    link_vaga := "L", origem_candidatura := "Linkedin", pessoas_adicionadas := "Sim",
    linkedin_mensagem := "Sim", ultimo_contato := "Ontem", status := "Aguardando" }

/-! ### Helper lemmas -/

theorem featureTuples_length (d : List Row) :
    (featureTuples d).length = (validRows d).length := by
  induction d with
  | nil => rfl
  | cons r tl ih =>
    unfold featureTuples validRows at *
    cases h : to_datetime_cell r.dataCandidatura <;>
      simp [List.filterMap_cons, List.filter_cons, h, ih]

theorem prep_y_eq (d : List Row) :
    (prepare_features_outputs d).y =
      (validRows d).map (fun r => label_encode (d.map (fun r2 => r2.status)) r.status) := rfl

theorem prep_y_len (d : List Row) :
    (prepare_features_outputs d).y.length = (validRows d).length := by
  rw [prep_y_eq, List.length_map]

theorem prep_X_len (d : List Row) :
    (prepare_features_outputs d).X.length = (validRows d).length := by
  have h : (prepare_features_outputs d).X =
      (get_dummies (featureTuples d)).map
        (transformRow (fitScaler (get_dummies (featureTuples d))
          (featureColumns (featureTuples d)).length)) := rfl
  rw [h, List.length_map, get_dummies, List.length_map, featureTuples_length]

/-- prepare_features succeeds exactly on the datasets with at least one
surviving row, and then returns the quadruple of the successful path. -/
theorem prepare_features_some (d : List Row) (hne : validRows d ≠ []) :
    (prepare_features d).1 = some (prepare_features_outputs d) := by
  have ht : featureTuples d ≠ [] := by
    intro h
    apply hne
    have := featureTuples_length d
    rw [h] at this
    exact List.length_eq_zero.mp this.symm
  unfold prepare_features
  rw [if_neg ht]

/-! ### Claim theorems -/

/-- Claim C3: on every successful run of prepare_features, rows whose
application date fails to parse under the fixed YYYY-MM-DD format are
excluded from both the feature matrix X and the label vector y — both have
exactly one entry per surviving (date-parseable) row, hence equal length. -/
theorem C3_unparseable_rows_excluded (d : List Row) (p : PrepOut)
    (h : (prepare_features d).1 = some p) :
    p.X.length = (validRows d).length ∧
    p.y.length = (validRows d).length ∧
    p.X.length = p.y.length ∧
    p.y = (validRows d).map (fun r => label_encode (d.map (fun r2 => r2.status)) r.status) := by
  have hp : p = prepare_features_outputs d := by
    unfold prepare_features at h
    by_cases ht : featureTuples d = []
    · rw [if_pos ht] at h
      exact Option.noConfusion h
    · rw [if_neg ht] at h
      exact (Option.some.injEq _ _ ▸ h).symm
  subst hp
  refine ⟨prep_X_len d, prep_y_len d, ?_, prep_y_eq d⟩
  rw [prep_X_len d, prep_y_len d]

/-- Witness for C3: the concrete 4-row dataset, on which preparation
succeeds. -/
theorem C3_witness :
    ∃ p, (prepare_features t4).1 = some p ∧
      p.X.length = (validRows t4).length ∧
      p.y.length = (validRows t4).length ∧
      p.X.length = p.y.length :=
  ⟨prepare_features_outputs t4, rfl,
   (C3_unparseable_rows_excluded t4 (prepare_features_outputs t4) rfl).1,
   (C3_unparseable_rows_excluded t4 (prepare_features_outputs t4) rfl).2.1,
   (C3_unparseable_rows_excluded t4 (prepare_features_outputs t4) rfl).2.2.1⟩

/-- Claim C6: the predictor takes the probability of the second class column
when the probability vector has more than one class column, and the sole
column's probability when the model has degenerated to a single class. -/
theorem C6_class_column_choice (q0 q1 : ℚ) (l : List ℚ) :
    select_probability (q0 :: q1 :: l) = q1 ∧ select_probability [q0] = q0 := by
  constructor <;> simp [select_probability]

/-- Claim C7: under the minimum-5-examples gate the fold-count clamp
min(5, len(y)) always evaluates to exactly 5: the clamp is dead logic. -/
theorem C7_fold_clamp_is_constant (n : Nat) (h : 5 ≤ n) : cv_dobras n = 5 :=
  Nat.min_eq_left h

/-- Witness for C7 at n = 9. -/
theorem C7_witness : 5 ≤ 9 ∧ cv_dobras 9 = 5 :=
  ⟨by decide, C7_fold_clamp_is_constant 9 (by decide)⟩

/-- Claim C9: a form submission with an empty company-name field (or any other
required field empty) is rejected with the fill-all-fields warning, appends no
row, and never invokes save_data, leaving the persisted dataset unchanged. -/
theorem C9_empty_field_rejected (inp : FormInput) (df : List Row)
    (h : inp.nome_empresa = "" ∨ inp.id_vaga = "" ∨ inp.vaga = "" ∨
         inp.link_vaga = "" ∨ inp.origem_candidatura = "" ∨
         inp.pessoas_adicionadas = "" ∨ inp.linkedin_mensagem = "" ∨
         inp.ultimo_contato = "") :
    (add_vaga_submit inp df).fill_warning = true ∧
    (add_vaga_submit inp df).df = df ∧
    (add_vaga_submit inp df).saved = false := by
  unfold add_vaga_submit
  rw [if_pos (by tauto)]
  exact ⟨rfl, rfl, rfl⟩

/-- Witness for C9: a concrete submission missing the company name against a
concrete one-row dataset. -/
theorem C9_witness :
    formMissingEmpresa.nome_empresa = "" ∧
    (add_vaga_submit formMissingEmpresa tMut).fill_warning = true ∧
    (add_vaga_submit formMissingEmpresa tMut).df = tMut ∧
    (add_vaga_submit formMissingEmpresa tMut).saved = false :=
  ⟨rfl, C9_empty_field_rejected formMissingEmpresa tMut (Or.inl rfl)⟩

/-- Claim C10: prepare_features is not pure in its input — every call mutates
the caller's table in place, adding a Status_encoded value to every row and
overwriting the date column with parsed timestamp values (null for
unparseable dates), so after training a freshly loaded non-empty table no
longer equals the table that was loaded from storage. -/
theorem C10_prepare_features_mutates_caller (d : List Row)
    (hload : ∀ r ∈ d, r.status_encoded = none) (hne : d ≠ []) :
    ((prepare_features d).2).length = d.length ∧
    (∀ r ∈ (prepare_features d).2,
      r.status_encoded.isSome = true ∧ ∃ o, r.dataCandidatura = DateCell.parsed o) ∧
    (prepare_features d).2 ≠ d := by
  have h2 : (prepare_features d).2 = d.map (mutateRow (d.map (fun r => r.status))) := rfl
  refine ⟨by rw [h2, List.length_map], ?_, ?_⟩
  · intro r hr
    rw [h2] at hr
    obtain ⟨r0, _, rfl⟩ := List.mem_map.mp hr
    exact ⟨rfl, _, rfl⟩
  · rw [h2]
    cases d with
    | nil => exact absurd rfl hne
    | cons r tl =>
      intro hEq
      rw [List.map_cons] at hEq
      have h1 := (List.cons.injEq _ _ _ _ ▸ hEq).1
      have h3 := congrArg Row.status_encoded h1
      rw [hload r (by simp)] at h3
      exact Option.noConfusion h3

/-- Witness for C10: a concrete freshly loaded one-row table differs from
itself after the mutation performed by prepare_features. -/
theorem C10_witness :
    (∀ r ∈ tMut, r.status_encoded = none) ∧ tMut ≠ [] ∧
    (prepare_features tMut).2 ≠ tMut :=
  ⟨by decide, by decide,
   (C10_prepare_features_mutates_caller tMut (by decide) (by decide)).2.2⟩

/-- Unfolding of train_model when preparation has succeeded with `p`. -/
theorem train_model_of_some (clf : Clf) (d : List Row) (p : PrepOut)
    (hp : (prepare_features d).1 = some p) :
    train_model clf d =
      (if p.y.length < 5 then
        (nullTrainOut false true false, (prepare_features d).2)
      else
        match cross_val_score clf (p.X.zip p.y) (cv_dobras p.y.length) with
        | .error _ => (nullTrainOut false false true, (prepare_features d).2)
        | .ok scores =>
          ({ model := some (clf ((p.X.zip p.y).take
                ((p.X.zip p.y).length - test_size_count (p.X.zip p.y).length))),
             scaler := some p.scaler,
             x_columns := some p.X_columns,
             prepare_error := false,
             insufficient_warning := false,
             train_error := false,
             accuracy := some (listMean scores) }, (prepare_features d).2)) := by
  simp only [train_model]
  rw [hp]

/-- Claim C2, amended: on every dataset with at least 1 and fewer than 5 rows
surviving date parsing, train_model returns the null triple, emits the
insufficient-data warning (and neither of the two error messages), and (being
a total function in this embedding, as every branch of the source returns)
never raises to its caller.  The at-least-1 condition is forced by the
counterexample below: with 0 valid rows the scaler raises inside
prepare_features and train_model exits through the X-is-None branch without
the insufficient-data warning. -/
theorem C2_insufficient_data_warning (clf : Clf) (d : List Row)
    (h1 : 1 ≤ (validRows d).length) (h : (validRows d).length < 5) :
    ((train_model clf d).1).model = none ∧
    ((train_model clf d).1).scaler = none ∧
    ((train_model clf d).1).x_columns = none ∧
    ((train_model clf d).1).insufficient_warning = true ∧
    ((train_model clf d).1).prepare_error = false ∧
    ((train_model clf d).1).train_error = false := by
  have hne : validRows d ≠ [] := by
    intro hnil
    rw [hnil] at h1
    exact Nat.not_succ_le_zero 0 h1
  have hy : (prepare_features_outputs d).y.length < 5 := by rw [prep_y_len]; exact h
  rw [train_model_of_some clf d (prepare_features_outputs d) (prepare_features_some d hne),
    if_pos hy]
  exact ⟨rfl, rfl, rfl, rfl, rfl, rfl⟩

/-- Counterexample to claim C2 as stated: the empty dataset (the freshly
created header-only CSV) has fewer than 5 valid rows, and train_model does
return the null triple — but the insufficient-data warning is never emitted:
preparation fails at the scaler and the X-is-None branch exits first, with
the data-preparation error message instead. -/
theorem C2_counterexample :
    (validRows tEmpty).length < 5 ∧
    ((train_model clf0 tEmpty).1).model = none ∧
    ((train_model clf0 tEmpty).1).scaler = none ∧
    ((train_model clf0 tEmpty).1).x_columns = none ∧
    ((train_model clf0 tEmpty).1).insufficient_warning = false ∧
    ((train_model clf0 tEmpty).1).prepare_error = true :=
  ⟨by decide, rfl, by decide, by decide, by decide, by decide⟩

/-- Witness for the amended C2: the concrete 4-row dataset. -/
theorem C2_witness :
    1 ≤ (validRows t4).length ∧ (validRows t4).length < 5 ∧
    ((train_model clf0 t4).1).model = none ∧
    ((train_model clf0 t4).1).insufficient_warning = true :=
  ⟨by decide, by decide,
   (C2_insufficient_data_warning clf0 t4 (by decide) (by decide)).1,
   (C2_insufficient_data_warning clf0 t4 (by decide) (by decide)).2.2.2.1⟩

theorem uniqueSorted_singleton (s : String) : uniqueSorted [s] = [s] := by
  unfold uniqueSorted
  rw [List.dedup_cons_of_not_mem (by simp), List.dedup_nil]
  rfl

theorem dummyColumnNames_singleton (col v : String) : dummyColumnNames col [v] = [] := by
  rw [dummyColumnNames, uniqueSorted_singleton]
  rfl

theorem dummyIndicators_singleton (v w : String) : dummyIndicators [v] w = [] := by
  rw [dummyIndicators, uniqueSorted_singleton]
  rfl

/-- On a one-row frame, get_dummies with drop_first drops the sole category of
every categorical column, leaving only the date ordinal. -/
theorem predict_input_dummies_eq (t : FeatureTuple) :
    predict_input_dummies t = [("Data da Candidatura", (t.dateOrd : ℚ))] := by
  unfold predict_input_dummies featureColumns featureRow
  rw [List.map_singleton, List.map_singleton, List.map_singleton, List.map_singleton,
    List.map_singleton, dummyColumnNames_singleton, dummyColumnNames_singleton,
    dummyColumnNames_singleton, dummyColumnNames_singleton, dummyColumnNames_singleton,
    dummyIndicators_singleton, dummyIndicators_singleton, dummyIndicators_singleton,
    dummyIndicators_singleton, dummyIndicators_singleton]
  rfl

/-- Claim C4: after one-hot expansion of the single prediction row and
re-alignment to the training-time column list, the feature vector has exactly
the columns of X_columns in their order, with every column absent from the
row's own expansion filled with zero — for any combination of categories in
the row.  (Concretely: with drop_first on a one-row frame every category is
dropped, so only the date column can survive the alignment.) -/
theorem C4_alignment_to_training_columns (cols : List String) (t : FeatureTuple) :
    reindex cols (predict_input_dummies t) =
      cols.map (fun c => if c = "Data da Candidatura" then (t.dateOrd : ℚ) else 0) ∧
    (reindex cols (predict_input_dummies t)).length = cols.length := by
  constructor
  · unfold reindex
    rw [predict_input_dummies_eq]
    apply List.map_congr_left
    intro c _
    by_cases hc : c = "Data da Candidatura"
    · subst hc
      simp [lookupColumn]
    · simp [lookupColumn, hc, Ne.symm hc]
  · rw [reindex, List.length_map]

/-- Claim C5: for every completed prediction, the displayed probability lies
in [0, 1]; the verdict is success exactly when the probability strictly
exceeds 0.50 (exactly 0.50 gives the non-success verdict); and both branches
surface the literal probability percentage. -/
theorem C5_probability_and_verdict (probs : List ℚ)
    (hmem : ∀ q ∈ probs, 0 ≤ q ∧ q ≤ 1) (hne : probs ≠ []) :
    0 ≤ select_probability probs ∧ select_probability probs ≤ 1 ∧
    ((classify_probability (select_probability probs)).success = true ↔
      1 / 2 < select_probability probs) ∧
    (select_probability probs = 1 / 2 →
      (classify_probability (select_probability probs)).success = false) ∧
    (classify_probability (select_probability probs)).percent =
      select_probability probs * 100 := by
  have hsel : select_probability probs ∈ probs := by
    unfold select_probability
    match probs, hne with
    | [q], _ => simp
    | q0 :: q1 :: l, _ =>
      rw [if_pos (by simp)]
      simp [List.getD]
  obtain ⟨h0, h1⟩ := hmem _ hsel
  refine ⟨h0, h1, ?_, ?_, ?_⟩
  · unfold classify_probability
    split <;> simp_all
  · intro heq
    unfold classify_probability
    rw [heq, if_neg (by norm_num)]
  · unfold classify_probability
    split <;> rfl

/-- Witness for C5 at the concrete probability vector [1/4, 3/4]. -/
theorem C5_witness :
    (∀ q ∈ ([1/4, 3/4] : List ℚ), 0 ≤ q ∧ q ≤ 1) ∧
    0 ≤ select_probability [1/4, 3/4] ∧ select_probability [1/4, 3/4] ≤ 1 ∧
    ((classify_probability (select_probability [1/4, 3/4])).success = true ↔
      1 / 2 < select_probability [1/4, 3/4]) :=
  ⟨by norm_num,
   (C5_probability_and_verdict [1/4, 3/4] (by norm_num) (by simp)).1,
   (C5_probability_and_verdict [1/4, 3/4] (by norm_num) (by simp)).2.1,
   (C5_probability_and_verdict [1/4, 3/4] (by norm_num) (by simp)).2.2.1⟩

/-- The in-place mutation changes neither which rows parse nor any of the six
feature columns, so the surviving feature tuples are unchanged. -/
theorem featureTuples_map_mutate (sts : List String) (d : List Row) :
    featureTuples (d.map (mutateRow sts)) = featureTuples d := by
  induction d with
  | nil => rfl
  | cons r tl ih =>
    rw [List.map_cons]
    unfold featureTuples at *
    rw [List.filterMap_cons, List.filterMap_cons]
    have hdc : to_datetime_cell ((mutateRow sts r).dataCandidatura) =
        to_datetime_cell r.dataCandidatura := rfl
    cases h : to_datetime_cell r.dataCandidatura with
    | none =>
      rw [hdc, h]
      simp [ih]
    | some o =>
      rw [hdc, h]
      simp [mutateRow, ih]

/-- Claim C8: the feature encoder is deterministic for a fixed table — calling
prepare_features a second time, on the table as the first call left it
(including the first call's in-place mutation), succeeds exactly when the
first call did and yields an identical column list and identical scaled
feature values. -/
theorem C8_encoder_deterministic (d : List Row) :
    ((prepare_features ((prepare_features d).2)).1).map (fun p => p.X_columns) =
      ((prepare_features d).1).map (fun p => p.X_columns) ∧
    ((prepare_features ((prepare_features d).2)).1).map (fun p => p.X) =
      ((prepare_features d).1).map (fun p => p.X) := by
  have hsnd : (prepare_features d).2 = d.map (mutateRow (d.map (fun r => r.status))) := rfl
  have ht : featureTuples ((prepare_features d).2) = featureTuples d := by
    rw [hsnd, featureTuples_map_mutate]
  have hcols : ∀ e : List Row,
      (prepare_features_outputs e).X_columns = featureColumns (featureTuples e) :=
    fun _ => rfl
  have hX : ∀ e : List Row,
      (prepare_features_outputs e).X =
        (get_dummies (featureTuples e)).map
          (transformRow (fitScaler (get_dummies (featureTuples e))
            (featureColumns (featureTuples e)).length)) := fun _ => rfl
  have hfst : ∀ e : List Row, (prepare_features e).1 =
      (if featureTuples e = [] then none else some (prepare_features_outputs e)) :=
    fun _ => rfl
  rw [hfst, hfst, ht]
  by_cases h0 : featureTuples d = []
  · rw [if_pos h0, if_pos h0]
    exact ⟨rfl, rfl⟩
  · rw [if_neg h0, if_neg h0]
    constructor
    · show some (prepare_features_outputs ((prepare_features d).2)).X_columns =
        some (prepare_features_outputs d).X_columns
      rw [hcols, hcols, ht]
    · show some (prepare_features_outputs ((prepare_features d).2)).X =
        some (prepare_features_outputs d).X
      rw [hX, hX, ht]

theorem foldScore_mem_unit (clf : Clf) (train test : List (List ScaledVal × Nat)) :
    0 ≤ foldScore clf train test ∧ foldScore clf train test ≤ 1 := by
  unfold foldScore
  constructor
  · exact div_nonneg (Nat.cast_nonneg _) (Nat.cast_nonneg _)
  · rcases Nat.eq_zero_or_pos test.length with h | h
    · rw [h]
      norm_num
    · rw [div_le_one (by exact_mod_cast h)]
      exact_mod_cast List.countP_le_length _

theorem listMean_mem_unit (l : List ℚ) (h : ∀ q ∈ l, 0 ≤ q ∧ q ≤ 1) :
    0 ≤ listMean l ∧ listMean l ≤ 1 := by
  unfold listMean
  rcases eq_or_ne l [] with rfl | hne
  · norm_num
  · have hpos : (0 : ℚ) < (l.length : ℚ) := by
      exact_mod_cast List.length_pos.mpr hne
    constructor
    · exact div_nonneg (List.sum_nonneg (fun q hq => (h q hq).1)) hpos.le
    · rw [div_le_one hpos]
      have hle := List.sum_le_card_nsmul l 1 (fun q hq => (h q hq).2)
      simpa using hle

/-- When the fold count is within the sample count and some class has at least
`cv` members, the stratified splitter accepts and one accuracy per fold is
returned, each a correct-count over a fold size, hence in [0, 1]. -/
theorem cross_val_score_accuracies (clf : Clf) (pairs : List (List ScaledVal × Nat))
    (cv : Nat) (hcvpos : 0 < cv) (hn : cv ≤ pairs.length) (c : Nat)
    (hc : cv ≤ ((pairs.map (fun p => p.2)).count c)) :
    ∃ scores, cross_val_score clf pairs cv = .ok scores ∧
      scores.length = cv ∧ ∀ q ∈ scores, 0 ≤ q ∧ q ≤ 1 := by
  have hmem : c ∈ pairs.map (fun p => p.2) :=
    List.count_pos_iff.mp (lt_of_lt_of_le hcvpos hc)
  have hall : ((classCounts (pairs.map (fun p => p.2))).all
      (fun k => decide (k < cv))) = false := by
    refine List.all_eq_false.mpr ⟨((pairs.map (fun p => p.2)).count c), ?_, ?_⟩
    · exact List.mem_map.mpr ⟨c, List.mem_dedup.mpr hmem, rfl⟩
    · simpa using Nat.not_lt.mpr hc
  have hcond : ¬ (((classCounts (pairs.map (fun p => p.2))).all
      (fun k => decide (k < cv))) = true) := by
    rw [hall]
    simp
  unfold cross_val_score
  rw [if_neg (Nat.not_lt.mpr hn), if_neg hcond]
  refine ⟨_, rfl, by simp, ?_⟩
  intro q hq
  obtain ⟨i, _, rfl⟩ := List.mem_map.mp hq
  exact foldScore_mem_unit clf _ _

/-- Each status value contributes at least its own row count to the count of
its encoded class in the label vector. -/
theorem count_label_encode_ge (d : List Row) (s : String) :
    (validRows d).countP (fun r => decide (r.status = s)) ≤
      ((prepare_features_outputs d).y).count
        (label_encode (d.map (fun r => r.status)) s) := by
  rw [prep_y_eq, List.count_eq_countP, List.countP_map]
  refine List.countP_mono_left (fun r _ hr => ?_)
  have hst : r.status = s := of_decide_eq_true hr
  simp [Function.comp, hst]

/-- Claim C1, amended: the extra hypothesis that some status value occurs on
at least 5 valid rows is forced by the stratified 5-fold splitter, which
raises (and the caught exception yields the null triple) whenever every class
has fewer than 5 members — see the counterexample.  Under it, training
returns non-null model, fitted scaler and column list, does not warn of
insufficient data, and reports a mean cross-validation accuracy in [0, 1],
for an arbitrary classifier. -/
theorem C1_training_succeeds (clf : Clf) (d : List Row)
    (h5 : 5 ≤ (validRows d).length)
    (_h2 : 2 ≤ ((d.map (fun r => r.status)).dedup).length)
    (hbig : ∃ s, 5 ≤ (validRows d).countP (fun r => decide (r.status = s))) :
    ((train_model clf d).1).model.isSome = true ∧
    ((train_model clf d).1).scaler.isSome = true ∧
    ((train_model clf d).1).x_columns.isSome = true ∧
    ((train_model clf d).1).insufficient_warning = false ∧
    ∃ a, ((train_model clf d).1).accuracy = some a ∧ 0 ≤ a ∧ a ≤ 1 := by
  obtain ⟨s, hs⟩ := hbig
  have hne : validRows d ≠ [] := by
    intro hnil
    rw [hnil] at h5
    exact Nat.not_succ_le_zero 4 h5
  have hylen : (prepare_features_outputs d).y.length = (validRows d).length := prep_y_len d
  have hy5 : 5 ≤ (prepare_features_outputs d).y.length := by rw [hylen]; exact h5
  have hXlen : (prepare_features_outputs d).X.length = (validRows d).length := prep_X_len d
  have hzlen : ((prepare_features_outputs d).X.zip (prepare_features_outputs d).y).length =
      (validRows d).length := by
    rw [List.length_zip, hXlen, hylen, Nat.min_self]
  have hsnd : (((prepare_features_outputs d).X.zip (prepare_features_outputs d).y).map
      (fun p => p.2)) = (prepare_features_outputs d).y :=
    List.map_snd_zip _ _ (by rw [hXlen, hylen])
  have hcount : 5 ≤ ((((prepare_features_outputs d).X.zip (prepare_features_outputs d).y).map
      (fun p => p.2)).count (label_encode (d.map (fun r => r.status)) s)) := by
    rw [hsnd]
    exact le_trans hs (count_label_encode_ge d s)
  obtain ⟨scores, hok, hslen, hsmem⟩ :=
    cross_val_score_accuracies clf
      ((prepare_features_outputs d).X.zip (prepare_features_outputs d).y)
      5 (by norm_num) (by rw [hzlen]; exact h5) _ hcount
  have hmean := listMean_mem_unit scores hsmem
  have hcv : cv_dobras (prepare_features_outputs d).y.length = 5 := Nat.min_eq_left hy5
  rw [train_model_of_some clf d (prepare_features_outputs d) (prepare_features_some d hne),
    if_neg (Nat.not_lt.mpr hy5), hcv, hok]
  exact ⟨rfl, rfl, rfl, rfl, listMean scores, rfl, hmean.1, hmean.2⟩

/-- Counterexample to claim C1 as stated: this dataset has 5 valid rows and 2
distinct status values, yet train_model returns the null triple (the
stratified 5-fold splitter rejects it because every class has fewer than 5
members, and the caught exception is converted to nulls at line 126). -/
theorem C1_counterexample :
    5 ≤ (validRows tC1).length ∧
    2 ≤ ((tC1.map (fun r => r.status)).dedup).length ∧
    ((train_model clf0 tC1).1).model.isSome = false ∧
    ((train_model clf0 tC1).1).scaler = none ∧
    ((train_model clf0 tC1).1).x_columns = none ∧
    ((train_model clf0 tC1).1).train_error = true := by
  refine ⟨by decide, by decide, by decide, by decide, by decide, by decide⟩

/-- Witness for the amended C1: six valid rows, five of status Rejeitado and
one of status Contratado. -/
theorem C1_witness :
    (5 ≤ (validRows tC1w).length ∧
      2 ≤ ((tC1w.map (fun r => r.status)).dedup).length ∧
      5 ≤ (validRows tC1w).countP (fun r => decide (r.status = "Rejeitado"))) ∧
    ((train_model clf0 tC1w).1).model.isSome = true ∧
    ((train_model clf0 tC1w).1).insufficient_warning = false ∧
    ∃ a, ((train_model clf0 tC1w).1).accuracy = some a ∧ 0 ≤ a ∧ a ≤ 1 :=
  ⟨⟨by decide, by decide, by decide⟩,
   (C1_training_succeeds clf0 tC1w (by decide) (by decide)
      ⟨"Rejeitado", by decide⟩).1,
   (C1_training_succeeds clf0 tC1w (by decide) (by decide)
      ⟨"Rejeitado", by decide⟩).2.2.2.1,
   (C1_training_succeeds clf0 tC1w (by decide) (by decide)
      ⟨"Rejeitado", by decide⟩).2.2.2.2⟩

end ControleVagas
